import Mathlib

/-!
A shallow embedding of the middleware-composition core of the poem web
framework (src/poem/src/middleware/mod.rs), together with theorems about the
composition combinators `combine`, `combine_if`, the either-branch wrapper,
the functional adapter `make`, and the tuple middleware instances.

The Rust traits become Lean type classes:
 - `trait Endpoint` (defined in the endpoint module of the crate, outside this
   source tree) becomes the class `Endpoint`, modelled from the spec as a
   request-to-result operation; the result type stands for the whole
   result-or-error value of the asynchronous call.
 - `trait Middleware<E> \x7b type Output; fn transform(&self, ep: E) -> Output \x7d`
   becomes the class `Middleware M E Out` with `transform : M → E → Out`.
The structs and enums of the module become Lean structures and inductives with
the same constructors and fields (`PhantomData` markers stay as phantom type
parameters).
-/

set_option autoImplicit false

/-- Modelled from the spec: the endpoint capability is an external collaborator
(the `Endpoint` trait is defined in the endpoint module of the crate, which is
not part of this source tree). Per the spec, an endpoint asynchronously
processes a request and produces a result-or-error; we model the
request-handling operation as a function from requests to results, the result
type standing for the whole result-or-error value. -/
class Endpoint (E : Type) (Req Res : outParam Type) where
  call : E → Req → Res

/-- The middleware capability, `trait Middleware<E>`: one operation
`transform : M → E → Out`, where `Out` models the associated type
`Middleware::Output`. (The Rust bounds `E : Endpoint` and `Output : Endpoint`
are typing obligations that play no role in the values and are left to the
theorems that need to observe request-handling behavior.) -/
class Middleware (M : Type) (E : Type) (Out : outParam Type) where
  transform : M → E → Out

/-- `impl<E: Endpoint> Middleware<E> for ()`: the identity (no-op) middleware,
whose `transform` returns the endpoint unchanged (`Output = E`). -/
instance (E : Type) : Middleware Unit E E where
  transform _ ep := ep

/-- `pub struct CombineMiddleware<A, B, E> \x7b a: A, b: B, _mark: PhantomData<E> \x7d`. -/
structure CombineMiddleware (A B E : Type) where
  a : A
  b : B

/-- `impl Middleware<E> for CombineMiddleware<A, B, E>` where `A: Middleware<E>`
and `B: Middleware<A::Output>`: `Output = B::Output` and
`transform(ep) = self.b.transform(self.a.transform(ep))`. -/
instance {A B E O₁ O₂ : Type} [Middleware A E O₁] [Middleware B O₁ O₂] :
    Middleware (CombineMiddleware A B E) E O₂ where
  transform c ep := Middleware.transform c.b (Middleware.transform c.a ep)

/-- `fn combine<T>(self, other: T) -> CombineMiddleware<Self, T, E>`: builds the
struct literal `CombineMiddleware \x7b a: self, b: other, _mark: PhantomData \x7d`. -/
def Middleware.combine {A B E O₁ O₂ : Type} [Middleware A E O₁] [Middleware B O₁ O₂]
    (self : A) (other : B) : CombineMiddleware A B E :=
  CombineMiddleware.mk self other

/-- `pub enum EitherMiddleware<A, B, E> \x7b A(A, PhantomData<E>), B(B, PhantomData<E>) \x7d`. -/
inductive EitherMiddleware (A B E : Type) where
  | A : A → EitherMiddleware A B E
  | B : B → EitherMiddleware A B E

/-- `pub fn left(a: A) -> Self`: tags the union with the `A` variant. -/
def EitherMiddleware.left {A B E : Type} (a : A) : EitherMiddleware A B E :=
  EitherMiddleware.A a

/-- `pub fn right(b: B) -> Self`: tags the union with the `B` variant. -/
def EitherMiddleware.right {A B E : Type} (b : B) : EitherMiddleware A B E :=
  EitherMiddleware.B b

/-- Modelled from the spec: `EitherEndpoint` is defined in the endpoint module
of the crate, outside this source tree. Per the spec (either-branch wrapper) it
is a tagged union holding exactly one of two endpoint variants. -/
inductive EitherEndpoint (A B : Type) where
  | A : A → EitherEndpoint A B
  | B : B → EitherEndpoint A B

/-- Modelled from the spec: the request-handling operation of the
either-endpoint dispatches to whichever variant is stored and returns the
result of that variant unchanged — a pure forwarding operation with no added
behavior. -/
instance {A B Req Res : Type} [Endpoint A Req Res] [Endpoint B Req Res] :
    Endpoint (EitherEndpoint A B) Req Res where
  call e req :=
    match e with
    | EitherEndpoint.A a => Endpoint.call a req
    | EitherEndpoint.B b => Endpoint.call b req

/-- `impl Middleware<E> for EitherMiddleware<A, B, E>` where `A: Middleware<E>`
and `B: Middleware<E>`: `Output = EitherEndpoint<A::Output, B::Output>`, and
`transform` dispatches on the stored variant, wrapping the result in the
corresponding either-endpoint variant. -/
instance {A B E AO BO : Type} [Middleware A E AO] [Middleware B E BO] :
    Middleware (EitherMiddleware A B E) E (EitherEndpoint AO BO) where
  transform m ep :=
    match m with
    | EitherMiddleware.A a => EitherEndpoint.A (Middleware.transform a ep)
    | EitherMiddleware.B b => EitherEndpoint.B (Middleware.transform b ep)

/-- `fn combine_if<T>(self, enable: bool, other: T)
-> EitherMiddleware<Self, CombineMiddleware<Self, T, E>, E>`:
`if !enable \x7b EitherMiddleware::left(self) \x7d
else \x7b EitherMiddleware::right(self.combine(other)) \x7d`. -/
def Middleware.combine_if {A B E O₁ O₂ : Type} [Middleware A E O₁] [Middleware B O₁ O₂]
    (self : A) (enable : Bool) (other : B) :
    EitherMiddleware A (CombineMiddleware A B E) E :=
  if !enable then
    EitherMiddleware.left self
  else
    EitherMiddleware.right (Middleware.combine self other)

/-- Modelled from the spec: the tuple middleware implementations are generated
by the `generate_implement_middlewares!` macro from the derive crate, which is
not part of this source tree. Per the spec, a fixed-size ordered sequence of
middlewares is itself a middleware that transforms the endpoint through each
element in declaration order, left to right:
`transform(ep) = M₃.transform(M₂.transform(M₁.transform(ep)))`. This is the
three-element instance, the arity the claims exercise. -/
instance {A B C E O₁ O₂ O₃ : Type}
    [Middleware A E O₁] [Middleware B O₁ O₂] [Middleware C O₂ O₃] :
    Middleware (A × B × C) E O₃ where
  transform t ep :=
    Middleware.transform t.2.2 (Middleware.transform t.2.1 (Middleware.transform t.1 ep))

/-- `pub struct FnMiddleware<T>(T);` — a middleware implemented by a closure. -/
structure FnMiddleware (T : Type) where
  f : T

/-- `impl<T, E, E2> Middleware<E> for FnMiddleware<T> where T: Fn(E) -> E2`:
`transform(ep) = (self.0)(ep)`. The callable type `T` is modelled as the
function type `E → E2`. -/
instance {E E2 : Type} : Middleware (FnMiddleware (E → E2)) E E2 where
  transform m ep := m.f ep

/-- `pub fn make<T>(f: T) -> FnMiddleware<T>`: wraps a closure as a middleware. -/
def make {T : Type} (f : T) : FnMiddleware T :=
  FnMiddleware.mk f

/-- A test-fixture endpoint wrapper, modelled on the `AddHeader` endpoint of
the module tests: it calls the inner endpoint and then, after the inner call
returns, appends its marker to the response; the response is modelled as the
list of markers appended so far. -/
structure MarkerEp (E M : Type) where
  ep : E
  marker : M

instance {E M Req : Type} [Endpoint E Req (List M)] :
    Endpoint (MarkerEp E M) Req (List M) where
  call m req := Endpoint.call m.ep req ++ [m.marker]

/-- The canonical marker-appending middleware over base endpoint type `E`:
wraps the endpoint in `MarkerEp` with the given marker, via the functional
adapter, as the module tests do with `make`. -/
def appendMarker (E : Type) {M : Type} (m : M) : FnMiddleware (E → MarkerEp E M) :=
  make fun ep => MarkerEp.mk ep m

/-- Claim C1: for every middleware `a`, every middleware `b` capable of
transforming the output endpoint type of `a`, and every endpoint `ep`, the
combined middleware satisfies
`transform(ep) = b.transform(a.transform(ep))`: `a` wraps the endpoint first
and `b` wraps the result. -/
theorem combine_transform_eq {A B E O₁ O₂ : Type} [Middleware A E O₁] [Middleware B O₁ O₂]
    (a : A) (b : B) (ep : E) :
    Middleware.transform (Middleware.combine a b : CombineMiddleware A B E) ep
      = Middleware.transform b (Middleware.transform a ep) :=
  rfl

/-- Claim C2: for all middlewares `a`, `b`, `c` with compatible endpoint types
and every endpoint `ep`, the endpoints produced by
`(a.combine(b)).combine(c).transform(ep)` and
`a.combine(b.combine(c)).transform(ep)` handle every request identically:
repeated combine is associative in observable request-handling behavior. -/
theorem combine_assoc_behavior {A B C E O₁ O₂ O₃ Req Res : Type}
    [Middleware A E O₁] [Middleware B O₁ O₂] [Middleware C O₂ O₃] [Endpoint O₃ Req Res]
    (a : A) (b : B) (c : C) (ep : E) (req : Req) :
    Endpoint.call (Middleware.transform
        (Middleware.combine (Middleware.combine a b : CombineMiddleware A B E) c
          : CombineMiddleware (CombineMiddleware A B E) C E) ep) req
      = Endpoint.call (Middleware.transform
        (Middleware.combine a (Middleware.combine b c : CombineMiddleware B C O₁)
          : CombineMiddleware A (CombineMiddleware B C O₁) E) ep) req :=
  rfl

/-- Claim C3 counterexample (to the clause that a disabled conditional
composition adds zero wrapping): at the concrete input `a = ()` and `b = ()`
(the identity middleware) over the endpoint `fun n => n + 1 : Nat → Nat`, the
endpoint produced by `combine_if false` is the either-endpoint constructor
`EitherEndpoint.A` applied to the endpoint produced by `a` — one added
forwarding layer whose request handling dispatches on the stored variant — and
not the bare endpoint produced by `a` alone. -/
theorem combine_if_false_adds_either_layer :
    Middleware.transform
        (Middleware.combine_if () false ()
          : EitherMiddleware Unit (CombineMiddleware Unit Unit (Nat → Nat)) (Nat → Nat))
        (fun n => n + 1)
      = EitherEndpoint.A (fun n => n + 1) :=
  rfl

/-- Claim C3 (amended): with the flag false, the conditionally combined
middleware produces an endpoint that behaves identically, for every request, to
the endpoint produced by `a` alone, and `b` is never consulted; the result is,
however, the endpoint of `a` inside one pure-forwarding either-endpoint layer,
not literally zero added wrapping. -/
theorem combine_if_false_behaves_as_left {A B E O₁ O₂ Req Res : Type}
    [Middleware A E O₁] [Middleware B O₁ O₂] [Endpoint O₁ Req Res] [Endpoint O₂ Req Res]
    (a : A) (b : B) (ep : E) (req : Req) :
    Endpoint.call (Middleware.transform
        (Middleware.combine_if a false b : EitherMiddleware A (CombineMiddleware A B E) E) ep
      : EitherEndpoint O₁ O₂) req
      = Endpoint.call (Middleware.transform a ep) req :=
  rfl

/-- Claim C4: with the flag true, the conditionally combined middleware
produces an endpoint that behaves identically, for every request, to the
endpoint produced by `a.combine(b)`. -/
theorem combine_if_true_behaves_as_combine {A B E O₁ O₂ Req Res : Type}
    [Middleware A E O₁] [Middleware B O₁ O₂] [Endpoint O₁ Req Res] [Endpoint O₂ Req Res]
    (a : A) (b : B) (ep : E) (req : Req) :
    Endpoint.call (Middleware.transform
        (Middleware.combine_if a true b : EitherMiddleware A (CombineMiddleware A B E) E) ep
      : EitherEndpoint O₁ O₂) req
      = Endpoint.call (Middleware.transform (Middleware.combine a b : CombineMiddleware A B E) ep) req :=
  rfl

/-- Claim C5: the identity middleware `()` transforms any endpoint to itself
unchanged, and composing it with any middleware `m` on either side yields a
middleware whose transformed endpoint is the very endpoint `m.transform ep`
(hence behaves identically to it). -/
theorem unit_middleware_identity {M E Out : Type} [Middleware M E Out] (m : M) (ep : E) :
    (Middleware.transform () ep : E) = ep
    ∧ Middleware.transform (Middleware.combine () m : CombineMiddleware Unit M E) ep
        = Middleware.transform m ep
    ∧ Middleware.transform (Middleware.combine m () : CombineMiddleware M Unit E) ep
        = Middleware.transform m ep :=
  ⟨rfl, rfl, rfl⟩

/-- Claim C6: the endpoint produced by `EitherMiddleware.left m` returns, for
every request, exactly the result the endpoint `m.transform ep` would return,
and symmetrically for `EitherMiddleware.right n`: the either wrapper is a pure
forwarding layer with no observable effect on request processing. -/
theorem either_transform_forwarding {M N E OM ON Req Res : Type}
    [Middleware M E OM] [Middleware N E ON] [Endpoint OM Req Res] [Endpoint ON Req Res]
    (m : M) (n : N) (ep : E) (req : Req) :
    Endpoint.call (Middleware.transform (EitherMiddleware.left m : EitherMiddleware M N E) ep) req
      = Endpoint.call (Middleware.transform m ep) req
    ∧ Endpoint.call (Middleware.transform (EitherMiddleware.right n : EitherMiddleware M N E) ep) req
      = Endpoint.call (Middleware.transform n ep) req :=
  ⟨rfl, rfl⟩

/-- Claim C7: applying the tuple `(p, q, r)` as a middleware to an endpoint
yields an endpoint whose request-handling behavior is identical to that of
`p.combine(q).combine(r)` applied to the same endpoint, and the tuple
transforms the endpoint through each element in declaration order, left to
right. -/
theorem tuple_three_behaves_as_combine {P Q R E O₁ O₂ O₃ Req Res : Type}
    [Middleware P E O₁] [Middleware Q O₁ O₂] [Middleware R O₂ O₃] [Endpoint O₃ Req Res]
    (p : P) (q : Q) (r : R) (ep : E) (req : Req) :
    Endpoint.call (Middleware.transform ((p, q, r) : P × Q × R) ep) req
      = Endpoint.call (Middleware.transform
          (Middleware.combine (Middleware.combine p q : CombineMiddleware P Q E) r
            : CombineMiddleware (CombineMiddleware P Q E) R E) ep) req
    ∧ Middleware.transform ((p, q, r) : P × Q × R) ep
      = Middleware.transform r (Middleware.transform q (Middleware.transform p ep)) :=
  ⟨rfl, rfl⟩

/-- Claim C8: for every endpoint-to-endpoint function `f` and every endpoint
`ep`, the functional-adapter middleware satisfies
`(make f).transform ep = f ep`. -/
theorem make_transform_eq {E E2 : Type} (f : E → E2) (ep : E) :
    Middleware.transform (make f) ep = f ep :=
  rfl

/-- Claim C9: combining two marker-appending middlewares as
`(appendMarker x).combine (appendMarker y)` and applying the result to a base
endpoint yields, for every request, the response of the base endpoint with the
marker `x` appended and then the marker `y` appended: the marker of the first
(inner) middleware appears in the response before the marker of the second
(outer) one. -/
theorem combine_marker_order {E M Req : Type} [Endpoint E Req (List M)]
    (x y : M) (ep : E) (req : Req) :
    Endpoint.call (Middleware.transform
        (Middleware.combine (appendMarker E x) (appendMarker (MarkerEp E M) y)
          : CombineMiddleware (FnMiddleware (E → MarkerEp E M))
              (FnMiddleware (MarkerEp E M → MarkerEp (MarkerEp E M) M)) E) ep) req
      = Endpoint.call ep req ++ [x, y]
    ∧ ∃ l₁ l₂,
        Endpoint.call (Middleware.transform
          (Middleware.combine (appendMarker E x) (appendMarker (MarkerEp E M) y)
            : CombineMiddleware (FnMiddleware (E → MarkerEp E M))
                (FnMiddleware (MarkerEp E M → MarkerEp (MarkerEp E M) M)) E) ep) req
          = l₁ ++ x :: l₂ ∧ y ∈ l₂ :=
  ⟨List.append_assoc (Endpoint.call ep req) [x] [y],
   Endpoint.call ep req, [y], List.append_assoc (Endpoint.call ep req) [x] [y], by simp⟩

/-- Claim C10: with the flag false, `combine_if` returns exactly
`EitherMiddleware.left a` — storing the untouched middleware `a`, so neither
transform is called at construction time — and its transform wraps the endpoint
of `a` in one either-endpoint forwarding layer, `EitherEndpoint.A`; with the
flag true it likewise only stores the combined pair. -/
theorem combine_if_selects_and_stores {A B E O₁ O₂ : Type}
    [Middleware A E O₁] [Middleware B O₁ O₂] (a : A) (b : B) (ep : E) :
    (Middleware.combine_if a false b : EitherMiddleware A (CombineMiddleware A B E) E)
        = EitherMiddleware.left a
    ∧ Middleware.transform
        (Middleware.combine_if a false b : EitherMiddleware A (CombineMiddleware A B E) E) ep
        = EitherEndpoint.A (Middleware.transform a ep)
    ∧ (Middleware.combine_if a true b : EitherMiddleware A (CombineMiddleware A B E) E)
        = EitherMiddleware.right (Middleware.combine a b) :=
  ⟨rfl, rfl, rfl⟩
